import Mathlib

/-!
Verification development for the backend-abstracted web-search subsystem
(web_search package: config.py, api.py, backends/duckduckgo.py,
backends/serpapi.py, backends/youcom.py).

The Python code is shallowly embedded: each relevant Python function is
translated into an executable Lean definition.  Provider interactions
(HTTP responses, parsed HTML) are passed in explicitly as data, and a
raised Python exception is modelled as the error side of an Except value,
while the in-band tagged union (result list versus error dict) is the
inductive SearchOutcome.
-/

set_option autoImplicit false

namespace WebSearch

/-- Single quote character, used to build the exact Python message strings. -/
def apos : String := Char.toString (Char.ofNat 39)

/-- Wrap a string in single quotes, as Python f-strings and str(KeyError) do. -/
def quoted (s : String) : String := apos ++ s ++ apos

/-- Python truthiness of an optional string: None and the empty string are falsy. -/
def truthyOpt : Option String → Bool
  | none => false
  | some s => !s.isEmpty

/-- Python truthiness of a plain string. -/
def truthyStr (s : String) : Bool := !s.isEmpty

/-- Python list slicing l[:m] for an int m: nonnegative m takes the first m
elements, negative m drops the last (-m) elements. -/
def pySliceTo {α : Type} (l : List α) (m : Int) : List α :=
  if 0 ≤ m then l.take m.toNat else l.take (l.length - (-m).toNat)

/-- Python `a or b` on an optional string a and a string b: a is used when it
is truthy (non-None and nonempty), otherwise b. -/
def pyOrStr (a : Option String) (b : String) : String :=
  match a with
  | some s => if s.isEmpty then b else s
  | none => b

/-- One normalized search hit, as built by every backend: the body field is
present exactly when show_snippet is enabled. -/
structure SearchResult where
  title : String
  href : String
  body : Option String
deriving DecidableEq

/-- Tagged union returned by every search operation: a result list (success,
possibly empty) or a dict with an error key. -/
inductive SearchOutcome where
  | ok (results : List SearchResult)
  | err (msg : String)
deriving DecidableEq

/-- Test for the Python expression (quote error quote in result): false on a
result list, true on an error dict. -/
def hasErr : SearchOutcome → Bool
  | .ok _ => false
  | .err _ => true

/-! ## Constants (constants.py) -/

def DEFAULT_PROXY_HOST : String := "brd.superproxy.io"

def DEFAULT_PROXY_PORT : Int := 22225

def DEFAULT_MAX_RESULTS : Int := 10

def DEFAULT_REGION : String := "wt-wt"

/-! ## Configuration resolver (config.py)

The OS environment is modelled as a record of the variables the package
reads; WEB_SEARCH_PREFERRED_BACKEND is included because the test suite
sets it, even though SearchConfig never reads it.
-/

/-- Environment variables consumed by the web_search package (None = unset). -/
structure Env where
  brightdata_host : Option String
  brightdata_port : Option String
  brightdata_username : Option String
  brightdata_password : Option String
  serpapi_api_key : Option String
  ydc_api_key : Option String
  web_search_preferred_backend : Option String
deriving DecidableEq

/-- Proxy configuration dict; a missing key and a key stored as None are
conflated into none (the code distinguishes them nowhere that matters). -/
structure ProxyConfig where
  host : Option String
  port : Option Int
  username : Option String
  password : Option String
deriving DecidableEq

/-- Caller override for proxy_config; none models an absent key and also a
key given as None, both of which the merge loop skips. -/
structure ProxyOverride where
  host : Option String
  port : Option Int
  username : Option String
  password : Option String
deriving DecidableEq

/-- Caller-supplied configuration dict accepted by SearchConfig. -/
structure ConfigDict where
  proxy_config : Option ProxyOverride
  show_snippet : Option Bool
  preferred_backend : Option String
  enable_fallback : Option Bool
deriving DecidableEq

/-- Resolved settings object produced by SearchConfig._parse_config. -/
structure SearchConfigR where
  proxy_config : ProxyConfig
  show_snippet : Bool
  preferred_backend : Option String
  enable_fallback : Bool
deriving DecidableEq

/-- Python int(os.getenv("BRIGHTDATA_PORT", str(DEFAULT_PROXY_PORT))) with the
ValueError fallback to the default port. -/
def parsePort (s : Option String) : Int :=
  match s with
  | none => DEFAULT_PROXY_PORT
  | some str =>
    match str.toInt? with
    | some n => n
    | none => DEFAULT_PROXY_PORT

/-- Merge loop of _parse_config: each override key with a non-None value
replaces the environment-derived value; other keys keep it. -/
def mergeProxy (base : ProxyConfig) (ov : ProxyOverride) : ProxyConfig :=
  { host := match ov.host with | some v => some v | none => base.host
    port := match ov.port with | some v => some v | none => base.port
    username := match ov.username with | some v => some v | none => base.username
    password := match ov.password with | some v => some v | none => base.password }

/-- SearchConfig._parse_config: environment proxy defaults, key-by-key proxy
override merge, and the display and backend preferences taken from the
config dict with hard-coded defaults. -/
def parseConfig (env : Env) (cd : ConfigDict) : SearchConfigR :=
  let envProxy : ProxyConfig :=
    { host := some (env.brightdata_host.getD DEFAULT_PROXY_HOST)
      port := some (parsePort env.brightdata_port)
      username := env.brightdata_username
      password := env.brightdata_password }
  let proxy : ProxyConfig :=
    match cd.proxy_config with
    | none => envProxy
    | some ov => mergeProxy envProxy ov
  { proxy_config := proxy
    show_snippet := cd.show_snippet.getD true
    preferred_backend := cd.preferred_backend
    enable_fallback := cd.enable_fallback.getD true }

/-! ## DuckDuckGo backend (backends/duckduckgo.py)

A successful HTML response is modelled pre-parsed: the list of div elements
with class result, each carrying an optional title anchor (text plus an
optional href attribute) and an optional snippet text.
-/

/-- Title anchor of a result div: its stripped text and its href attribute
(none when the attribute is missing; get with default gives the empty
string). -/
structure DdgLink where
  text : String
  href : Option String
deriving DecidableEq

/-- One parsed result div of the DuckDuckGo HTML page. -/
structure DdgDiv where
  title_link : Option DdgLink
  snippet_text : Option String
deriving DecidableEq

/-- Construction-time configuration of DuckDuckGoBackend. -/
structure DdgConfig where
  proxy_config : ProxyConfig
  show_snippet : Bool
deriving DecidableEq

/-- DuckDuckGoBackend._get_proxy_dict: None unless both username and password
are truthy; otherwise the proxy URL for both the http and the https key. -/
def ddgProxyDict (pc : ProxyConfig) : Option (String × String) :=
  if truthyOpt pc.username && truthyOpt pc.password then
    let host := pc.host.getD DEFAULT_PROXY_HOST
    let port := pc.port.getD DEFAULT_PROXY_PORT
    let username := pc.username.getD ""
    let password := pc.password.getD ""
    let proxy_url := "http://" ++ username ++ ":" ++ password ++ "@" ++ host ++ ":" ++ toString port
    some (proxy_url, proxy_url)
  else none

/-- Value of the proxies argument passed to requests.get by
DuckDuckGoBackend.search: the proxy dict when use_proxy is set and the
credentials are configured, otherwise None (direct connection). -/
def ddgRequestProxies (cfg : DdgConfig) (use_proxy : Bool) : Option (String × String) :=
  if use_proxy then ddgProxyDict cfg.proxy_config else none

/-- The kl request parameter: the wt-wt sentinel maps to us-en. -/
def ddgRegionParam (region : String) : String :=
  if region != "wt-wt" then region else "us-en"

/-- Per-div extraction in DuckDuckGoBackend.search: a div without a title
anchor is skipped (continue); otherwise title text, href with empty-string
default, and the snippet only when show_snippet is enabled. -/
def ddgParseDiv (show_snippet : Bool) (d : DdgDiv) : Option SearchResult :=
  match d.title_link with
  | none => none
  | some tl =>
    some { title := tl.text
           href := tl.href.getD ""
           body := if show_snippet then some (d.snippet_text.getD "") else none }

/-- Arguments every backend search receives from the facade. -/
structure SearchParams where
  keywords : String
  max_results : Int
  region : String
  use_proxy : Bool
deriving DecidableEq

/-- Success path of DuckDuckGoBackend.search on a fetched and parsed HTML
page: iterate over result_divs[:max_results], skipping divs without a title
anchor, and return the (possibly empty) list as a success outcome. -/
def ddgSearchOnResponse (cfg : DdgConfig) (p : SearchParams) (result_divs : List DdgDiv) : SearchOutcome :=
  .ok ((pySliceTo result_divs p.max_results).filterMap (ddgParseDiv cfg.show_snippet))

/-! ## SerpAPI backend (backends/serpapi.py) -/

/-- Construction-time configuration of SerpApiBackend. -/
structure SerpConfig where
  api_key : Option String
  show_snippet : Bool
deriving DecidableEq

/-- SerpApiBackend.is_available: key is not None and nonempty. -/
def serpAvailable (cfg : SerpConfig) : Bool := truthyOpt cfg.api_key

/-- One item of organic_results; a field is none when the key is absent
(plain indexing on an absent key raises KeyError). -/
structure SerpItem where
  title : Option String
  link : Option String
  snippet : Option String
deriving DecidableEq

/-- Response dict produced by GoogleSearch.get_dict. -/
structure SerpResponse where
  error : Option String
  organic_results : Option (List SerpItem)
deriving DecidableEq

/-- One provider interaction of the SerpAPI retry loop: either GoogleSearch
raised, or it produced a response dict. -/
inductive SerpEvent where
  | exn (msg : String)
  | resp (r : SerpResponse)
deriving DecidableEq

/-- Substring check needle occurs in hay, used for the 429 tests. -/
def listHasPre (needle hay : List Char) : Bool :=
  match needle, hay with
  | [], _ => true
  | _ :: _, [] => false
  | a :: as, b :: bs => a == b && listHasPre as bs

def listHasSub (needle hay : List Char) : Bool :=
  match hay with
  | [] => needle.isEmpty
  | _ :: bs => listHasPre needle hay || listHasSub needle bs

def strHasSub (hay needle : String) : Bool := listHasSub needle.data hay.data

/-- Python test (429 in s). -/
def is429 (s : String) : Bool := strHasSub s "429"

def serpNotConfiguredMsg : String :=
  "SerpAPI key not configured. Set SERPAPI_API_KEY environment variable or provide api_key parameter."

def serpMissingResultsMsg : String :=
  "Failed to retrieve the search results from server. Please try again later."

/-- Result normalization loop of SerpApiBackend.search: plain dict indexing
on title, link and (when show_snippet) snippet, so an absent key raises
KeyError (the error side, carrying str of the KeyError). -/
def serpNormalize (show_snippet : Bool) : List SerpItem → Except String (List SearchResult)
  | [] => .ok []
  | item :: rest =>
    match item.title with
    | none => .error (quoted "title")
    | some t =>
      match item.link with
      | none => .error (quoted "link")
      | some l =>
        if show_snippet then
          match item.snippet with
          | none => .error (quoted "snippet")
          | some sn =>
            match serpNormalize show_snippet rest with
            | .ok rs => .ok ({ title := t, href := l, body := some sn } :: rs)
            | .error e => .error e
        else
          match serpNormalize show_snippet rest with
          | .ok rs => .ok ({ title := t, href := l, body := none } :: rs)
          | .error e => .error e

/-- Code after the retry loop breaks: the organic_results presence check and
the normalization (whose KeyError propagates out of search uncaught). -/
def serpFinish (cfg : SerpConfig) (p : SearchParams) (r : SerpResponse) : Except String SearchOutcome :=
  match r.organic_results with
  | none => .ok (.err serpMissingResultsMsg)
  | some items =>
    match serpNormalize cfg.show_snippet (pySliceTo items p.max_results) with
    | .ok rs => .ok (.ok rs)
    | .error e => .error e

/-- The while-True retry loop of SerpApiBackend.search: a 429 exception and a
response whose error field mentions 429 are retried, a non-429 exception
returns an error outcome immediately, and any other event breaks the loop.
The events list supplies the successive provider interactions; none means
the loop is still retrying when the modelled interactions run out. -/
def serpapiLoop (cfg : SerpConfig) (p : SearchParams) : List SerpEvent → Option (Except String SearchOutcome)
  | [] => none
  | .exn s :: rest =>
    if is429 s then serpapiLoop cfg p rest else some (.ok (.err s))
  | .resp r :: rest =>
    match r.error with
    | some e => if is429 e then serpapiLoop cfg p rest else some (serpFinish cfg p r)
    | none => some (serpFinish cfg p r)

/-- SerpApiBackend.search: availability guard, then the retry loop. -/
def serpapiSearch (cfg : SerpConfig) (p : SearchParams) (events : List SerpEvent) : Option (Except String SearchOutcome) :=
  if !serpAvailable cfg then some (.ok (.err serpNotConfiguredMsg))
  else serpapiLoop cfg p events

/-! ## You.com backend (backends/youcom.py) -/

/-- Construction-time configuration of YouComBackend. -/
structure YouConfig where
  api_key : Option String
  show_snippet : Bool
deriving DecidableEq

/-- YouComBackend.is_available: key is not None and nonempty. -/
def youAvailable (cfg : YouConfig) : Bool := truthyOpt cfg.api_key

/-- One item of the web or news result lists. -/
structure YouItem where
  title : Option String
  url : Option String
  snippet : Option String
  description : Option String
deriving DecidableEq

/-- Parsed response body: the web and news result lists (each defaulting to
the empty list when the key chain is absent). -/
structure YouResponse where
  web : List YouItem
  news : List YouItem
deriving DecidableEq

/-- One provider interaction of YouComBackend.search: a RequestException, any
other exception, or a parsed response. -/
inductive YouEvent where
  | reqExn (msg : String)
  | otherExn (msg : String)
  | resp (r : YouResponse)
deriving DecidableEq

/-- The request parameters sent to the You.com search endpoint: the count
parameter is min(max_results, 10) (the You.com API limit). -/
structure YouRequest where
  query : String
  count : Int
deriving DecidableEq

def youcomRequest (keywords : String) (max_results : Int) : YouRequest :=
  { query := keywords, count := min max_results 10 }

def youNotConfiguredMsg : String :=
  "You.com API key not configured. Set YDC_API_KEY environment variable or provide api_key parameter."

def youNoResultsMsg : String := "No search results found"

/-- Conversion of one You.com item to the standard format: snippet, falling
back to description, only when show_snippet is enabled. -/
def youConvert (show_snippet : Bool) (item : YouItem) : SearchResult :=
  { title := item.title.getD ""
    href := item.url.getD ""
    body := if show_snippet then some (pyOrStr item.snippet (item.description.getD "")) else none }

/-- YouComBackend.search: availability guard, the two except clauses, and on
a response the web-then-news combination, the empty-combined error, and the
conversion of all_results[:max_results]. The whole body sits in try/except,
so this search never raises. -/
def youcomSearch (cfg : YouConfig) (p : SearchParams) (ev : YouEvent) : SearchOutcome :=
  if !youAvailable cfg then .err youNotConfiguredMsg
  else
    match ev with
    | .reqExn s => .err ("Failed to fetch You.com results: " ++ s)
    | .otherExn s => .err ("Unexpected error while processing You.com results: " ++ s)
    | .resp r =>
      let all_results := r.web ++ r.news
      if all_results.isEmpty then .err youNoResultsMsg
      else .ok ((pySliceTo all_results p.max_results).map (youConvert cfg.show_snippet))

/-! ## Facade (api.py)

The registry self.backends is a dict keyed by backend name, iterated in
insertion order; it is modelled as a list of Backend records carrying the
name, the is_available value and the search function.  Object inequality
between registry entries coincides with name inequality because the dict
holds one instance per name.  A raised Python exception is the error side
of the Except value returned by searchFn; searchEngineQuery also returns
the trace of backend search invocations, so that claims about how often a
backend is called are statements about the returned trace.
-/

/-- One registered backend as the facade sees it. -/
structure Backend where
  name : String
  available : Bool
  searchFn : SearchParams → Except String SearchOutcome

/-- Dict lookup by name in the registry. -/
def lookupB (reg : List Backend) (n : String) : Option Backend :=
  reg.find? (fun b => b.name == n)

/-- Availability filter used by the priority chain. -/
def availableHit (o : Option Backend) : Option Backend :=
  match o with
  | some b => if b.available then some b else none
  | none => none

def noBackendsMsg : String := "No search backends available"

/-- Priority chain of _select_backend: serpapi if present and available,
then youcom if present and available, then duckduckgo regardless of
availability, otherwise the RuntimeError (the error side). -/
def selectSmart (reg : List Backend) : Except String Backend :=
  match availableHit (lookupB reg "serpapi") with
  | some b => .ok b
  | none =>
    match availableHit (lookupB reg "youcom") with
    | some b => .ok b
    | none =>
      match lookupB reg "duckduckgo" with
      | some b => .ok b
      | none => .error noBackendsMsg

/-- WebSearchAPI._select_backend: explicit name if truthy and registered,
else the configured preferred backend if truthy and registered, else the
priority chain. -/
def selectBackend (reg : List Backend) (cfg : SearchConfigR) (backendName : Option String) : Except String Backend :=
  let explicitHit : Option Backend :=
    match backendName with
    | some bn => if truthyStr bn then lookupB reg bn else none
    | none => none
  match explicitHit with
  | some b => .ok b
  | none =>
    let prefHit : Option Backend :=
      match cfg.preferred_backend with
      | some pb => if truthyStr pb then lookupB reg pb else none
      | none => none
    match prefHit with
    | some b => .ok b
    | none => selectSmart reg

/-- Proxy auto-detection of search_engine_query: for duckduckgo, the
truthiness of the configured proxy username; False for every other
backend. -/
def autoProxy (cfg : SearchConfigR) (name : String) : Bool :=
  if name == "duckduckgo" then truthyOpt cfg.proxy_config.username else false

/-- The use_proxy search parameter: the caller value when given, otherwise
the auto-detected value for the selected backend. -/
def resolveUseProxy (cfg : SearchConfigR) (useProxyArg : Option Bool) (name : String) : Bool :=
  match useProxyArg with
  | none => autoProxy cfg name
  | some b => b

/-- Execute and fallback phases of search_engine_query: invoke the selected
backend; on an in-band error with fallback enabled and no pinned backend
argument, invoke the first other available registry backend once with
recomputed proxy usage, and return its result whatever it is.  A raised
exception is converted by the enclosing try/except into the in-band
Search execution failed outcome.  The second component is the invocation
trace. -/
def executeAndFallback (reg : List Backend) (cfg : SearchConfigR)
    (kw : String) (mr : Int) (rgn : String) (useProxyArg : Option Bool)
    (sel : Backend) (backendIsNone : Bool) :
    SearchOutcome × List (String × SearchParams) :=
  let params : SearchParams := ⟨kw, mr, rgn, resolveUseProxy cfg useProxyArg sel.name⟩
  match sel.searchFn params with
  | .error e => (.err ("Search execution failed: " ++ e), [(sel.name, params)])
  | .ok res =>
    if hasErr res && cfg.enable_fallback && backendIsNone then
      match reg.filter (fun b => b.available && b.name != sel.name) with
      | [] => (res, [(sel.name, params)])
      | fb :: _ =>
        let params2 : SearchParams := ⟨kw, mr, rgn, autoProxy cfg fb.name⟩
        match fb.searchFn params2 with
        | .error e => (.err ("Search execution failed: " ++ e), [(sel.name, params), (fb.name, params2)])
        | .ok res2 => (res2, [(sel.name, params), (fb.name, params2)])
    else (res, [(sel.name, params)])

/-- WebSearchAPI.search_engine_query.  A truthy backend argument must be
registered and available, with distinct error messages for the two
failures and no fallback afterwards; a falsy backend argument goes through
_select_backend, whose RuntimeError the top-level except converts into the
in-band Search execution failed outcome.  Fallback is gated on the backend
argument being exactly None. -/
def searchEngineQuery (reg : List Backend) (cfg : SearchConfigR)
    (kw : String) (mr : Int) (rgn : String)
    (useProxyArg : Option Bool) (backend : Option String) :
    SearchOutcome × List (String × SearchParams) :=
  match backend with
  | some bn =>
    if truthyStr bn then
      match lookupB reg bn with
      | none => (.err ("Backend " ++ quoted bn ++ " is not available. Check configuration."), [])
      | some sel =>
        if sel.available then
          executeAndFallback reg cfg kw mr rgn useProxyArg sel false
        else
          (.err ("Backend " ++ quoted bn ++ " is not available. Check API key configuration."), [])
    else
      match selectBackend reg cfg backend with
      | .error e => (.err ("Search execution failed: " ++ e), [])
      | .ok sel => executeAndFallback reg cfg kw mr rgn useProxyArg sel false
  | none =>
    match selectBackend reg cfg none with
    | .error e => (.err ("Search execution failed: " ++ e), [])
    | .ok sel => executeAndFallback reg cfg kw mr rgn useProxyArg sel true

/-- SearchConfig.create_backends: always duckduckgo, serpapi only when the
SERPAPI_API_KEY environment variable is truthy, always youcom (available
only when YDC_API_KEY is truthy).  The concrete search functions are
passed in as parameters, since each depends on its provider world. -/
def createBackends (env : Env) (ddgFn serpFn youFn : SearchParams → Except String SearchOutcome) : List Backend :=
  [⟨"duckduckgo", true, ddgFn⟩]
  ++ (if truthyOpt env.serpapi_api_key then [⟨"serpapi", truthyOpt env.serpapi_api_key, serpFn⟩] else [])
  ++ [⟨"youcom", truthyOpt env.ydc_api_key, youFn⟩]

/-! ## Claims -/

/-- Slicing from the front with bound 0 yields the empty list. -/
theorem pySliceTo_zero {α : Type} (l : List α) : pySliceTo l 0 = [] := by
  simp [pySliceTo]

/-- C1, counterexample.  The claim states that every backend returns an empty
success sequence for every max_results that is at most 0, regardless of the
provider response.  It fails twice: with max_results = -1 the DuckDuckGo
backend slices with Python negative-index semantics and returns a nonempty
success list from a page with two result divs, and with max_results = 0 the
You.com backend returns an error outcome when the provider returned zero
combined results. -/
theorem C1_counterexample :
    ddgSearchOnResponse ⟨⟨some "h", some 1, none, none⟩, true⟩ ⟨"q", -1, "wt-wt", false⟩
        [⟨some ⟨"A", some "http://a"⟩, some "sa"⟩, ⟨some ⟨"B", some "http://b"⟩, some "sb"⟩]
      = .ok [⟨"A", "http://a", some "sa"⟩] ∧
    ddgSearchOnResponse ⟨⟨some "h", some 1, none, none⟩, true⟩ ⟨"q", -1, "wt-wt", false⟩
        [⟨some ⟨"A", some "http://a"⟩, some "sa"⟩, ⟨some ⟨"B", some "http://b"⟩, some "sb"⟩]
      ≠ .ok [] ∧
    youcomSearch ⟨some "key", true⟩ ⟨"q", 0, "wt-wt", false⟩ (.resp ⟨[], []⟩)
      = .err "No search results found" := by
  refine ⟨by decide, by decide, by decide⟩

/-- C1, amended.  For max_results = 0 (the only nonpositive value for which
the Python slices are empty): the DuckDuckGo backend returns an empty
success list on any successful response, the SerpAPI backend returns an
empty success list on any response carrying organic_results, and the
You.com backend returns an empty success list provided the combined
web-and-news results are nonempty (zero combined results being its error
outcome).  Negative max_results values are excluded because the slice
then drops elements from the end and can be nonempty. -/
theorem C1_amended (dcfg : DdgConfig) (scfg : SerpConfig) (ycfg : YouConfig)
    (kw rgn : String) (upb : Bool) (divs : List DdgDiv) (items : List SerpItem)
    (web news : List YouItem)
    (hs : serpAvailable scfg = true) (hy : youAvailable ycfg = true)
    (hne : web ++ news ≠ []) :
    ddgSearchOnResponse dcfg ⟨kw, 0, rgn, upb⟩ divs = .ok [] ∧
    serpapiSearch scfg ⟨kw, 0, rgn, upb⟩ [.resp ⟨none, some items⟩] = some (.ok (.ok [])) ∧
    youcomSearch ycfg ⟨kw, 0, rgn, upb⟩ (.resp ⟨web, news⟩) = .ok [] := by
  have hempty : (web ++ news).isEmpty = false := by
    cases h : web ++ news with
    | nil => exact absurd h hne
    | cons a l => rfl
  refine ⟨?_, ?_, ?_⟩
  · simp [ddgSearchOnResponse, pySliceTo_zero]
  · simp [serpapiSearch, hs, serpapiLoop, serpFinish, pySliceTo_zero, serpNormalize]
  · simp [youcomSearch, hy, hempty, pySliceTo_zero]

/-- C1, witness for the amended theorem at concrete inputs. -/
theorem C1_amended_witness :
    serpAvailable ⟨some "k", true⟩ = true ∧
    youAvailable ⟨some "k", true⟩ = true ∧
    ([⟨some "t", some "u", some "s", none⟩] : List YouItem) ++ [] ≠ [] ∧
    (ddgSearchOnResponse ⟨⟨some "h", some 1, none, none⟩, true⟩ ⟨"q", 0, "wt-wt", false⟩
        [⟨some ⟨"A", some "http://a"⟩, some "sa"⟩] = .ok [] ∧
     serpapiSearch ⟨some "k", true⟩ ⟨"q", 0, "wt-wt", false⟩
        [.resp ⟨none, some [⟨some "t", some "l", some "s"⟩]⟩] = some (.ok (.ok [])) ∧
     youcomSearch ⟨some "k", true⟩ ⟨"q", 0, "wt-wt", false⟩
        (.resp ⟨[⟨some "t", some "u", some "s", none⟩], []⟩) = .ok []) :=
  ⟨by decide, by decide, by decide,
   C1_amended ⟨⟨some "h", some 1, none, none⟩, true⟩ ⟨some "k", true⟩ ⟨some "k", true⟩
     "q" "wt-wt" false [⟨some ⟨"A", some "http://a"⟩, some "sa"⟩]
     [⟨some "t", some "l", some "s"⟩] [⟨some "t", some "u", some "s", none⟩] []
     (by decide) (by decide) (by decide)⟩

/-- C2, code behavior.  The resolved preferred_backend equals the value in
the caller-supplied config dict for every environment state: no
environment variable is consulted.  In particular, at the input of the
test test_environment_preferred_backend_overrides_config (environment
variable WEB_SEARCH_PREFERRED_BACKEND set to youcom, config dict carrying
preferred_backend serpapi) the resolver yields serpapi, while the test
asserts youcom. -/
theorem C2_code_behavior :
    (∀ (env : Env) (cd : ConfigDict), (parseConfig env cd).preferred_backend = cd.preferred_backend) ∧
    (parseConfig ⟨none, none, none, none, none, none, some "youcom"⟩
        ⟨none, none, some "serpapi", none⟩).preferred_backend = some "serpapi" :=
  ⟨fun _ _ => rfl, rfl⟩

/-- Slicing the empty list yields the empty list for every bound. -/
theorem pySliceTo_nil {α : Type} (m : Int) : pySliceTo ([] : List α) m = [] := by
  unfold pySliceTo
  split <;> simp

/-- C6.  For the DuckDuckGo backend with use_proxy set: when the username or
the password is missing (None or empty), no proxies argument is attached to
the outbound request, for any use_proxy value; when both are present, the
attached value maps http and https to exactly
http colon slash slash username colon password at host colon port; and the
search proceeds to a success outcome on a successful response in either
case. -/
theorem C6_proxy_rule (pc : ProxyConfig) (ss up : Bool) :
    ((truthyOpt pc.username && truthyOpt pc.password) = false →
        ddgRequestProxies ⟨pc, ss⟩ up = none) ∧
    (∀ (u pw hs : String) (po : Int),
        pc = ⟨some hs, some po, some u, some pw⟩ →
        truthyStr u = true → truthyStr pw = true →
        ddgRequestProxies ⟨pc, ss⟩ true =
          some ("http://" ++ u ++ ":" ++ pw ++ "@" ++ hs ++ ":" ++ toString po,
                "http://" ++ u ++ ":" ++ pw ++ "@" ++ hs ++ ":" ++ toString po)) ∧
    (∀ (p : SearchParams) (divs : List DdgDiv),
        ddgSearchOnResponse ⟨pc, ss⟩ p divs =
          .ok ((pySliceTo divs p.max_results).filterMap (ddgParseDiv ss))) := by
  refine ⟨?_, ?_, fun p divs => rfl⟩
  · intro h
    cases up <;> simp [ddgRequestProxies, ddgProxyDict, h]
  · intro u pw hs po hpc hu hpw
    subst hpc
    unfold truthyStr at hu hpw
    simp [ddgRequestProxies, ddgProxyDict, truthyOpt, hu, hpw]

/-- C6, witness: empty username disables the proxy even with use_proxy set;
full credentials produce the exact proxy URL. -/
theorem C6_witness :
    (truthyOpt (some "") && truthyOpt (some "p")) = false ∧
    ddgRequestProxies ⟨⟨some "h", some 1, some "", some "p"⟩, true⟩ true = none ∧
    ddgRequestProxies ⟨⟨some "host", some 22225, some "user", some "pass"⟩, true⟩ true =
      some ("http://" ++ "user" ++ ":" ++ "pass" ++ "@" ++ "host" ++ ":" ++ toString (22225 : Int),
            "http://" ++ "user" ++ ":" ++ "pass" ++ "@" ++ "host" ++ ":" ++ toString (22225 : Int)) :=
  ⟨by decide,
   (C6_proxy_rule ⟨some "h", some 1, some "", some "p"⟩ true true).1 (by decide),
   (C6_proxy_rule ⟨some "host", some 22225, some "user", some "pass"⟩ true true).2.1
     "user" "pass" "host" 22225 rfl (by decide) (by decide)⟩

/-- C7.  For an available You.com backend: zero combined web and news results
yield the no-results error outcome, while a nonzero combined total yields a
success sequence, the converted slice of the web results followed by the
news results; in contrast the DuckDuckGo backend maps an empty parsed page
to an empty success list, and the SerpAPI backend maps an empty
organic_results list to an empty success list. -/
theorem C7_zero_asymmetry (ycfg : YouConfig) (p : SearchParams) (web news : List YouItem)
    (hav : youAvailable ycfg = true) :
    (web ++ news = [] → youcomSearch ycfg p (.resp ⟨web, news⟩) = .err youNoResultsMsg) ∧
    (web ++ news ≠ [] → youcomSearch ycfg p (.resp ⟨web, news⟩) =
        .ok ((pySliceTo (web ++ news) p.max_results).map (youConvert ycfg.show_snippet))) ∧
    (∀ (dcfg : DdgConfig), ddgSearchOnResponse dcfg p [] = .ok []) ∧
    (∀ (scfg : SerpConfig), serpAvailable scfg = true →
        serpapiSearch scfg p [.resp ⟨none, some []⟩] = some (.ok (.ok []))) := by
  refine ⟨?_, ?_, ?_, ?_⟩
  · intro h
    simp [youcomSearch, hav, h]
  · intro h
    have hempty : (web ++ news).isEmpty = false := by
      cases hh : web ++ news with
      | nil => exact absurd hh h
      | cons a l => rfl
    simp [youcomSearch, hav, hempty]
  · intro dcfg
    simp [ddgSearchOnResponse, pySliceTo_nil]
  · intro scfg hs
    simp [serpapiSearch, hs, serpapiLoop, serpFinish, pySliceTo_nil, serpNormalize]

/-- C7, witness: one available You.com backend evaluated on a zero-result
response and on a one-web-result response. -/
theorem C7_witness :
    youAvailable ⟨some "k", true⟩ = true ∧
    ([] : List YouItem) ++ [] = [] ∧
    youcomSearch ⟨some "k", true⟩ ⟨"q", 5, "wt-wt", false⟩ (.resp ⟨[], []⟩) = .err youNoResultsMsg ∧
    ([⟨some "t", some "u", some "s", none⟩] : List YouItem) ++ [] ≠ [] ∧
    youcomSearch ⟨some "k", true⟩ ⟨"q", 5, "wt-wt", false⟩
        (.resp ⟨[⟨some "t", some "u", some "s", none⟩], []⟩) =
      .ok ((pySliceTo (([⟨some "t", some "u", some "s", none⟩] : List YouItem) ++ []) 5).map (youConvert true)) := by
  refine ⟨by decide, rfl, ?_, by decide, ?_⟩
  · exact (C7_zero_asymmetry ⟨some "k", true⟩ ⟨"q", 5, "wt-wt", false⟩ [] [] (by decide)).1 rfl
  · exact (C7_zero_asymmetry ⟨some "k", true⟩ ⟨"q", 5, "wt-wt", false⟩
      [⟨some "t", some "u", some "s", none⟩] [] (by decide)).2.1 (by decide)

/-- C8, code behavior.  The SerpAPI result normalization indexes items with
plain subscripting outside any try block, so an organic result item without
a snippet key (with snippet display enabled) makes search raise a KeyError
that propagates to the caller, instead of returning an error outcome. -/
theorem C8_code_behavior :
    serpapiSearch ⟨some "key", true⟩ ⟨"q", 5, "wt-wt", false⟩
        [.resp ⟨none, some [⟨some "t", some "l", none⟩]⟩]
      = some (.error (quoted "snippet")) ∧
    youcomSearch ⟨some "key", true⟩ ⟨"q", 5, "wt-wt", false⟩
        (.resp ⟨[⟨some "t", some "u", none, none⟩], []⟩)
      = .ok [⟨"t", "u", some ""⟩] := by
  exact ⟨rfl, rfl⟩

/-- C10.  The count parameter of the You.com search request equals
min(max_results, 10) for every max_results, hence is capped at 10 when the
caller requests more than 10 and equals the request when at most 10. -/
theorem C10_count_cap (kw : String) (m : Int) :
    (youcomRequest kw m).count = min m 10 ∧
    (10 < m → (youcomRequest kw m).count = 10) ∧
    (m ≤ 10 → (youcomRequest kw m).count = m) := by
  refine ⟨rfl, ?_, ?_⟩
  · intro h
    simp [youcomRequest, min_eq_right (le_of_lt h)]
  · intro h
    simp [youcomRequest, min_eq_left h]

/-- C10, witness: a request for 25 results is capped at 10, a request for 3
results passes through. -/
theorem C10_witness :
    ((10 : Int) < 25 ∧ (youcomRequest "q" 25).count = 10) ∧
    ((3 : Int) ≤ 10 ∧ (youcomRequest "q" 3).count = 3) :=
  ⟨⟨by decide, (C10_count_cap "q" 25).2.1 (by decide)⟩,
   ⟨by decide, (C10_count_cap "q" 3).2.2 (by decide)⟩⟩

/-! Concrete material for facade witnesses. -/

def demoCfg : SearchConfigR :=
  ⟨⟨some "brd.superproxy.io", some 22225, none, none⟩, true, none, true⟩

def demoSerpErr : Backend := ⟨"serpapi", true, fun _ => .ok (.err "boom")⟩

def demoDdgOk : Backend := ⟨"duckduckgo", true, fun _ => .ok (.ok [])⟩

def demoDdgErr : Backend := ⟨"duckduckgo", true, fun _ => .ok (.err "down")⟩

def emptyEnv : Env := ⟨none, none, none, none, none, none, none⟩

/-- C3, counterexample.  With no first-party key configured, an explicit
serpapi request returns the message Backend serpapi is not available,
Check configuration — which does not contain the substring not configured
claimed by the spec (it contains not available instead) — and the
invocation trace is empty, so no backend search and hence no network call
happens. -/
theorem C3_counterexample :
    searchEngineQuery
        (createBackends emptyEnv (fun _ => .ok (.ok [])) (fun _ => .ok (.ok [])) (fun _ => .ok (.ok [])))
        demoCfg "site unavailable test" 3 "wt-wt" none (some "serpapi")
      = (.err ("Backend " ++ quoted "serpapi" ++ " is not available. Check configuration."), []) ∧
    strHasSub ("Backend " ++ quoted "serpapi" ++ " is not available. Check configuration.") "not configured" = false ∧
    strHasSub ("Backend " ++ quoted "serpapi" ++ " is not available. Check configuration.") "not available" = true := by
  refine ⟨rfl, by decide, by decide⟩

/-- C3, amended.  When the first-party key environment variable is not
truthy, create_backends registers no serpapi backend, so an explicit
serpapi request returns the error outcome Backend serpapi is not
available, Check configuration (a message mentioning unavailability and
configuration, not the literal substring not configured), with an empty
invocation trace: no backend search and no network call is attempted. -/
theorem C3_amended (env : Env) (cfg : SearchConfigR)
    (d s y : SearchParams → Except String SearchOutcome)
    (kw : String) (mr : Int) (rgn : String) (up : Option Bool)
    (h : truthyOpt env.serpapi_api_key = false) :
    searchEngineQuery (createBackends env d s y) cfg kw mr rgn up (some "serpapi") =
      (.err ("Backend " ++ quoted "serpapi" ++ " is not available. Check configuration."), []) := by
  unfold searchEngineQuery createBackends
  rw [h]
  rfl

/-- C3, witness for the amended theorem at a concrete environment. -/
theorem C3_amended_witness :
    truthyOpt emptyEnv.serpapi_api_key = false ∧
    searchEngineQuery
        (createBackends emptyEnv (fun _ => .ok (.ok [])) (fun _ => .ok (.ok [])) (fun _ => .ok (.ok [])))
        demoCfg "q" 10 "wt-wt" none (some "serpapi")
      = (.err ("Backend " ++ quoted "serpapi" ++ " is not available. Check configuration."), []) :=
  ⟨by decide,
   C3_amended emptyEnv demoCfg (fun _ => .ok (.ok [])) (fun _ => .ok (.ok [])) (fun _ => .ok (.ok []))
     "q" 10 "wt-wt" none (by decide)⟩

/-- C4.  Auto-selection with fallback enabled: when the selected primary
backend returns an in-band error outcome and the registry holds another
available backend, the facade invokes exactly one fallback backend — the
first other available backend in registry iteration order — exactly once,
with use_proxy recomputed by the auto rule for that backend, and returns
that result unchanged; the trace shows exactly the primary call and the
single fallback call, so no second hop occurs even when the fallback
result is itself an error. -/
theorem C4_fallback_once (reg : List Backend) (cfg : SearchConfigR)
    (kw : String) (mr : Int) (rgn : String) (up : Option Bool)
    (sel fb : Backend) (rest : List Backend) (res res2 : SearchOutcome)
    (hsel : selectBackend reg cfg none = .ok sel)
    (hfb : cfg.enable_fallback = true)
    (h1 : sel.searchFn ⟨kw, mr, rgn, resolveUseProxy cfg up sel.name⟩ = .ok res)
    (herr : hasErr res = true)
    (hav : reg.filter (fun b => b.available && b.name != sel.name) = fb :: rest)
    (h2 : fb.searchFn ⟨kw, mr, rgn, autoProxy cfg fb.name⟩ = .ok res2) :
    searchEngineQuery reg cfg kw mr rgn up none =
      (res2,
        [(sel.name, ⟨kw, mr, rgn, resolveUseProxy cfg up sel.name⟩),
         (fb.name, ⟨kw, mr, rgn, autoProxy cfg fb.name⟩)]) := by
  simp [searchEngineQuery, executeAndFallback, hsel, hfb, h1, herr, hav, h2]

/-- C4, witness: serpapi erroring primary plus available duckduckgo fallback;
the result is the duckduckgo success and each backend is invoked once. -/
theorem C4_witness :
    selectBackend [demoSerpErr, demoDdgOk] demoCfg none = .ok demoSerpErr ∧
    demoCfg.enable_fallback = true ∧
    demoSerpErr.searchFn ⟨"q", 2, "wt-wt", resolveUseProxy demoCfg none demoSerpErr.name⟩ = .ok (.err "boom") ∧
    hasErr (.err "boom") = true ∧
    [demoSerpErr, demoDdgOk].filter (fun b => b.available && b.name != demoSerpErr.name) = [demoDdgOk] ∧
    demoDdgOk.searchFn ⟨"q", 2, "wt-wt", autoProxy demoCfg demoDdgOk.name⟩ = .ok (.ok []) ∧
    searchEngineQuery [demoSerpErr, demoDdgOk] demoCfg "q" 2 "wt-wt" none none =
      (.ok [],
        [(demoSerpErr.name, ⟨"q", 2, "wt-wt", resolveUseProxy demoCfg none demoSerpErr.name⟩),
         (demoDdgOk.name, ⟨"q", 2, "wt-wt", autoProxy demoCfg demoDdgOk.name⟩)]) :=
  ⟨rfl, rfl, rfl, rfl, rfl, rfl,
   C4_fallback_once [demoSerpErr, demoDdgOk] demoCfg "q" 2 "wt-wt" none demoSerpErr demoDdgOk []
     (.err "boom") (.ok []) rfl rfl rfl rfl rfl rfl⟩

/-- C5.  With an explicit truthy backend argument that is registered and
available, an in-band error outcome from that backend is the result of the
facade verbatim, and the trace holds exactly that one invocation: no
fallback occurs for pinned requests (the fallback branch requires the
backend argument to be exactly None). -/
theorem C5_no_fallback (reg : List Backend) (cfg : SearchConfigR)
    (kw : String) (mr : Int) (rgn : String) (up : Option Bool)
    (bn : String) (sel : Backend) (e : String)
    (hbn : truthyStr bn = true)
    (hlook : lookupB reg bn = some sel)
    (hav : sel.available = true)
    (hsearch : sel.searchFn ⟨kw, mr, rgn, resolveUseProxy cfg up sel.name⟩ = .ok (.err e)) :
    searchEngineQuery reg cfg kw mr rgn up (some bn) =
      (.err e, [(sel.name, ⟨kw, mr, rgn, resolveUseProxy cfg up sel.name⟩)]) := by
  simp [searchEngineQuery, executeAndFallback, hbn, hlook, hav, hsearch]

/-- C5, witness: a pinned duckduckgo request whose backend errors; the error
comes back verbatim with a single-call trace even though another fallback
candidate could have been registered. -/
theorem C5_witness :
    truthyStr "duckduckgo" = true ∧
    lookupB [demoDdgErr] "duckduckgo" = some demoDdgErr ∧
    demoDdgErr.available = true ∧
    demoDdgErr.searchFn ⟨"q", 3, "wt-wt", resolveUseProxy demoCfg none demoDdgErr.name⟩ = .ok (.err "down") ∧
    searchEngineQuery [demoDdgErr] demoCfg "q" 3 "wt-wt" none (some "duckduckgo") =
      (.err "down", [(demoDdgErr.name, ⟨"q", 3, "wt-wt", resolveUseProxy demoCfg none demoDdgErr.name⟩)]) :=
  ⟨by decide, rfl, rfl, rfl,
   C5_no_fallback [demoDdgErr] demoCfg "q" 3 "wt-wt" none "duckduckgo" demoDdgErr "down"
     (by decide) rfl rfl rfl⟩

/-- On the empty registry every selection path falls through to the
RuntimeError. -/
theorem selectBackend_empty (cfg : SearchConfigR) (bn : Option String) :
    selectBackend [] cfg bn = .error noBackendsMsg := by
  cases bn with
  | none =>
    cases hpb : cfg.preferred_backend with
    | none => simp [selectBackend, selectSmart, lookupB, availableHit, hpb]
    | some pb => simp [selectBackend, selectSmart, lookupB, availableHit, hpb]
  | some b =>
    cases hpb : cfg.preferred_backend with
    | none => simp [selectBackend, selectSmart, lookupB, availableHit, hpb]
    | some pb => simp [selectBackend, selectSmart, lookupB, availableHit, hpb]

/-- C9, counterexample.  On an empty registry, the top-level search operation
does not raise: it returns the in-band error outcome Search execution
failed, No search backends available — the RuntimeError of _select_backend
is converted by the top-level except clause, contradicting the claim that
the fatal error reaches the caller as an exception. -/
theorem C9_counterexample :
    searchEngineQuery [] demoCfg "test" 10 "wt-wt" none none =
      (.err ("Search execution failed: " ++ noBackendsMsg), []) ∧
    hasErr (searchEngineQuery [] demoCfg "test" 10 "wt-wt" none none).1 = true := by
  exact ⟨rfl, rfl⟩

/-- C9, amended.  On an empty registry the inner _select_backend does signal
the fatal RuntimeError (no search backends available), but
search_engine_query catches every exception at the top level and hands the
caller the in-band error outcome Search execution failed, No search
backends available instead of raising. -/
theorem C9_amended (cfg : SearchConfigR) (kw : String) (mr : Int) (rgn : String) (up : Option Bool) :
    selectBackend [] cfg none = .error noBackendsMsg ∧
    searchEngineQuery [] cfg kw mr rgn up none =
      (.err ("Search execution failed: " ++ noBackendsMsg), []) := by
  have h := selectBackend_empty cfg none
  exact ⟨h, by simp [searchEngineQuery, h]⟩

end WebSearch
